import Mathlib

/-!
Verification of the STARK prover/verifier core (prover.py, verifier.py).

The Python code is shallowly embedded: proof records (loose Python dicts)
become association lists of string keys and dynamically typed values,
Python exceptions become the error side of Except, and the SHA-256
hexdigest function from hashlib (an external library, not part of this
repository) is treated as an explicit function argument H from strings
to strings, since every property below depends only on H being a
deterministic function, together with - where stated as a hypothesis -
its digests being 64 lowercase hex characters.
-/

namespace Stark

/-- A dynamically typed Python value as it occurs in a proof record:
an integer, a string, or a (possibly nested) list. -/
inductive PVal where
  | int (i : Int)
  | str (s : String)
  | list (l : List PVal)

/-- A Python dict with string keys, embedded as an association list.
Honest proof records bind each key once; lookup returns the first binding. -/
def PDict : Type := List (String × PVal)

/-- Dictionary lookup, Python d.get(k) returning None when absent. -/
def pget : PDict → String → Option PVal
  | [], _ => none
  | kv :: rest, k => if kv.1 == k then some kv.2 else pget rest k

/-- Dictionary lookup with a default, Python d.get(k, v). -/
def pgetD (d : PDict) (k : String) (v : PVal) : PVal :=
  (pget d k).getD v

/-- Python k in d. -/
def pmem (d : PDict) (k : String) : Bool :=
  (pget d k).isSome

/-- One entry of the computation trace: the dict appended by
fib_with_trace in prover.py, with keys step, operation, input, output,
depth. -/
structure Step where
  step : Nat
  operation : String
  inp : Int
  out : Int
  depth : Nat
deriving DecidableEq, Repr

/-- The ProofTrace dataclass of prover.py: steps plus the singleton
dicts inputs = (n) and outputs = (result). -/
structure ProofTrace where
  steps : List Step
  inputs_n : Int
  outputs_result : Int
deriving DecidableEq, Repr

/-- The mutable state threaded through fib_with_trace: the trace_steps
list and the memo dict (keyed by the argument num). -/
structure FibState where
  traceSteps : List Step
  memo : List (Nat × Int)
deriving DecidableEq, Repr

/-- Python memo lookup: num in memo / memo[num]. -/
def memoLookup (m : List (Nat × Int)) (k : Nat) : Option Int :=
  match m with
  | [] => none
  | kv :: rest => if kv.1 == k then some kv.2 else memoLookup rest k

/-- The memo-hit branch of fib_with_trace: return the memoized value
and append a memo_lookup entry whose step field is the trace length at
append time. -/
def memoHitStep (num : Nat) (v : Int) (depth : Nat) (st : FibState) : Int × FibState :=
  (v, ⟨st.traceSteps ++ [⟨st.traceSteps.length, "memo_lookup", num, v, depth⟩], st.memo⟩)

/-- The tail of the fresh-computation branch of fib_with_trace, after
the value p.1 has been computed in state p.2: store it in the memo and
append a fib_compute entry. -/
def freshStep (num : Nat) (depth : Nat) (p : Int × FibState) : Int × FibState :=
  (p.1, ⟨p.2.traceSteps ++ [⟨p.2.traceSteps.length, "fib_compute", num, p.1, depth⟩],
         p.2.memo ++ [(num, p.1)]⟩)

/-- The inner recursive function fib_with_trace(num, depth) of
STARKProver.compute_fibonacci, with the shared mutable state made
explicit.  On a memo hit it appends a memo_lookup entry; otherwise it
computes the value (base cases 0 and 1, else recursing on num-1 then
num-2, both at depth+1), stores it in the memo and appends a
fib_compute entry, exactly as in the source. -/
def fibWithTrace : Nat → Nat → FibState → Int × FibState
  | num, depth, st =>
    match memoLookup st.memo num with
    | some v => memoHitStep num v depth st
    | none =>
        match num with
        | 0 => freshStep 0 depth (0, st)
        | 1 => freshStep 1 depth (1, st)
        | Nat.succ (Nat.succ k) =>
            let q := fibWithTrace (k + 1) (depth + 1) st
            let r := fibWithTrace k (depth + 1) q.2
            freshStep (k + 2) depth (q.1 + r.1, r.2)

/-- STARKProver.compute_fibonacci: rejects negative n with the
ValueError message, otherwise runs fib_with_trace from the empty state
and packages the ProofTrace. -/
def compute_fibonacci (n : Int) : Except String (Int × ProofTrace) :=
  if n < 0 then .error "n must be non-negative"
  else
    let r := fibWithTrace n.toNat 0 ⟨[], []⟩
    .ok (r.1, ⟨r.2.traceSteps, n, r.1⟩)

/-- JSON serialization of one trace step dict, keys sorted
(json.dumps with sort_keys=True and default separators). -/
def serializeStep (s : Step) : String :=
  "\x7b\"depth\": " ++ toString s.depth ++ ", \"input\": " ++ toString s.inp ++
    ", \"operation\": \"" ++ s.operation ++ "\", \"output\": " ++ toString s.out ++
    ", \"step\": " ++ toString s.step ++ "\x7d"

/-- json.dumps(trace.to_dict(), sort_keys=True): top-level keys in
sorted order inputs, outputs, steps. -/
def serializeTrace (t : ProofTrace) : String :=
  "\x7b\"inputs\": \x7b\"n\": " ++ toString t.inputs_n ++
    "\x7d, \"outputs\": \x7b\"result\": " ++ toString t.outputs_result ++
    "\x7d, \"steps\": [" ++ String.intercalate ", " (t.steps.map serializeStep) ++ "]\x7d"

/-- STARKProver._commit_to_trace: hexdigest of the canonical JSON of
the trace.  H stands for the sha256 hexdigest function. -/
def commit_to_trace (H : String → String) (t : ProofTrace) : String :=
  H (serializeTrace t)

/-- STARKProver._evaluate_constraints: for each step in trace order,
output mod 2 to the security_level.  Lean Int emod agrees with Python
percent on a positive modulus. -/
def evaluate_constraints (L : Nat) (t : ProofTrace) : List Int :=
  t.steps.map (fun s => s.out % (2 ^ L : Nat))

/-- STARKProver._generate_challenge: hexdigest of the commitment
concatenated with the decimal string of the security level, truncated
to the first 16 characters. -/
def generate_challenge (H : String → String) (L : Nat) (commitment : String) : String :=
  (H (commitment ++ toString L)).take 16

/-- Python list slicing with stride 2, l[::2]: every second element
starting at index 0. -/
def everySecond : List Int → List Int
  | [] => []
  | [a] => [a]
  | a :: _ :: rest => a :: everySecond rest

/-- One folding move of _fri_commit: current_evals[::2] if the list
has more than one element, else the list unchanged. -/
def fri_fold (l : List Int) : List Int :=
  if l.length > 1 then everySecond l else l

/-- json.dumps([str(e) for e in current_evals[:5]]): a JSON list of
the decimal strings of the first five entries. -/
def fri_layer_str (l : List Int) : String :=
  "[" ++ String.intercalate ", " ((l.take 5).map (fun e => "\"" ++ toString e ++ "\"")) ++ "]"

/-- The loop body of _fri_commit, run k times: hash the serialized
head of the current list together with the challenge, then fold. -/
def fri_commit_loop (H : String → String) (challenge : String) :
    Nat → List Int → List String
  | 0, _ => []
  | k + 1, cur =>
      H (fri_layer_str cur ++ challenge) :: fri_commit_loop H challenge k (fri_fold cur)

/-- STARKProver._fri_commit: exactly 3 iterations of the layer loop. -/
def fri_commit (H : String → String) (evaluations : List Int) (challenge : String) :
    List String :=
  fri_commit_loop H challenge 3 evaluations

/-- STARKProver.generate_proof: assembles the proof dict.  L is the
prover security_level, ts the (unconstrained, informational)
wall-clock timestamp value. -/
def generate_proof (H : String → String) (L : Nat) (ts : PVal)
    (computation_result : Int) (trace : ProofTrace) : PDict :=
  let trace_commitment := commit_to_trace H trace
  let constraint_evals := evaluate_constraints L trace
  let challenge := generate_challenge H L trace_commitment
  let fri_layers := fri_commit H constraint_evals challenge
  [("version", .str "1.0"),
   ("computation", .str "fibonacci"),
   ("result", .int computation_result),
   ("trace_commitment", .str trace_commitment),
   ("constraint_evaluations", .list ((constraint_evals.take 10).map .int)),
   ("challenge", .str challenge),
   ("fri_layers", .list (fri_layers.map .str)),
   ("timestamp", ts),
   ("security_bits", .int L)]

/-! ### Verifier embedding

Python exceptions inside the checks of STARKVerifier.verify become the
error side of Except; verify itself catches them, as in the source. -/

/-- The VerificationResult dataclass of verifier.py. -/
structure VerificationResult where
  valid : Bool
  message : String
  checks_passed : List String
  checks_failed : List String
deriving DecidableEq, Repr

mutual
/-- Python repr of a value, as used by str() on a list: decimal for
ints, quoted for strings (internal escaping not modelled; no claim
inspects it), bracketed comma-separated repr for lists. -/
def pyRepr : PVal → String
  | .int i => toString i
  | .str s => "\x27" ++ s ++ "\x27"
  | .list l => "[" ++ String.intercalate ", " (pyReprList l) ++ "]"

/-- repr of each element of a list. -/
def pyReprList : List PVal → List String
  | [] => []
  | v :: vs => pyRepr v :: pyReprList vs
end

/-- Python str() of a value: the string itself for strings, decimal
for ints, repr elementwise for lists. -/
def pyStr : PVal → String
  | .int i => toString i
  | .str s => s
  | .list l => "[" ++ String.intercalate ", " (pyReprList l) ++ "]"

/-- The character set of the literal 0123456789abcdef used by the
shape checks. -/
def hexChars : List Char := "0123456789abcdef".data

/-- The shape test applied by checks 2 and 4 to a string: exactly 64
characters, each contained in 0123456789abcdef. -/
def isHex64 (s : String) : Bool :=
  s.length == 64 && s.data.all (fun c => hexChars.contains c)

/-- Contiguous-sublist test, Python substring membership pat in s. -/
def hasSub (pat : List Char) : List Char → Bool
  | [] => pat.isEmpty
  | c :: rest => pat.isPrefixOf (c :: rest) || hasSub pat rest

/-- The generator all(c in hexdigits for c in commitment) when the
iterated value is a Python list: each element must be a string (else
TypeError) and is tested as a substring of the hex alphabet. -/
def pyAllHexMembers : List PVal → Except String Bool
  | [] => .ok true
  | v :: vs =>
      match v with
      | .str s => if hasSub s.data hexChars then pyAllHexMembers vs else .ok false
      | _ => .error "TypeError: in <string> requires string as left operand"

/-- STARKVerifier._check_proof_structure: all required fields present,
and constraint_evaluations and fri_layers are lists. -/
def required_fields : List String :=
  ["version", "computation", "result", "trace_commitment",
   "constraint_evaluations", "challenge", "fri_layers", "security_bits"]

/-- Whether an optional field value is present and a list. -/
def isListOpt : Option PVal → Bool
  | some (.list _) => true
  | _ => false

/-- STARKVerifier._check_proof_structure. -/
def check_proof_structure (proof : PDict) : Bool :=
  required_fields.all (fun f => pmem proof f) &&
    isListOpt (pget proof "constraint_evaluations") &&
    isListOpt (pget proof "fri_layers")

/-- STARKVerifier._verify_trace_commitment (check 2): the field
(default empty string) must have length 64 and all characters in the
hex alphabet.  len() of an int raises; a list has a length, and its
members are then tested by substring membership, which raises on
non-strings. -/
def verify_trace_commitment (proof : PDict) : Except String Bool :=
  match pgetD proof "trace_commitment" (.str "") with
  | .str s => .ok (isHex64 s)
  | .int _ => .error "TypeError: object of type int has no len()"
  | .list l => if l.length == 64 then pyAllHexMembers l else .ok false

/-- Whether a proof-record value is a non-negative Python int
(first loop of _verify_constraints). -/
def isNonnegInt : PVal → Bool
  | .int i => decide (0 ≤ i)
  | _ => false

/-- Whether a value is an int below the verifier range bound
(second loop of _verify_constraints); non-ints cannot reach it. -/
def intBelow (bound : Nat) : PVal → Bool
  | .int i => decide (i < (bound : Int))
  | _ => true

/-- STARKVerifier._verify_constraints (check 3), with VL the verifier
security_level: the evaluations (default empty list) must be truthy,
every element a non-negative int, and every element below 2 ^ VL.
Iterating over an int raises; iterating over a non-empty string yields
characters, which fail the isinstance int test. -/
def verify_constraints (VL : Nat) (proof : PDict) : Except String Bool :=
  match pgetD proof "constraint_evaluations" (.list []) with
  | .list evals =>
      if evals.isEmpty then .ok false
      else .ok (evals.all isNonnegInt && evals.all (intBelow (2 ^ VL)))
  | .int i => if i == 0 then .ok false else .error "TypeError: int object is not iterable"
  | .str _ => .ok false

/-- The per-layer test of _verify_fri_layers: a string of 64 hex
characters. -/
def isHexLayer : PVal → Bool
  | .str s => isHex64 s
  | _ => false

/-- STARKVerifier._verify_fri_layers (check 4): the layers (default
empty list) must be truthy and each one a 64-hex string.  len() of an
int raises; iterating a non-empty string yields 1-character strings,
which fail the length test. -/
def verify_fri_layers (proof : PDict) : Except String Bool :=
  match pgetD proof "fri_layers" (.list []) with
  | .list layers =>
      if layers.isEmpty then .ok false
      else .ok (layers.all isHexLayer)
  | .int i => if i == 0 then .ok false else .error "TypeError: object of type int has no len()"
  | .str _ => .ok false

/-- STARKVerifier._verify_challenge (check 5): recompute the hexdigest
of trace_commitment concatenated with str(security_bits), truncate to
16 characters, and compare with the stored challenge.  String
concatenation raises when trace_commitment is not a string; the final
Python == between values of different types is just False. -/
def verify_challenge (H : String → String) (proof : PDict) : Except String Bool :=
  match pgetD proof "trace_commitment" (.str "") with
  | .str tc =>
      let expected := (H (tc ++ pyStr (pgetD proof "security_bits" (.int 0)))).take 16
      match pgetD proof "challenge" (.str "") with
      | .str c => .ok (c == expected)
      | _ => .ok false
  | _ => .error "TypeError: can only concatenate str to str"

/-- Check 6 inline in verify: proof.get security_bits (default 0)
compared with the verifier level; Python >= between an int and a
non-int raises, and the f-string then indexes proof[security_bits]
directly, so an absent field raises KeyError in either branch.
Returns the pass/fail bit together with the displayed bits string. -/
def verify_security_level (VL : Nat) (proof : PDict) : Except String (Bool × String) :=
  match pget proof "security_bits" with
  | some (.int i) => .ok (decide ((VL : Int) ≤ i), toString i)
  | some _ => .error "TypeError: unsupported operand types for >="
  | none => .error "KeyError: security_bits"

/-- Record one check outcome: append the pass description or the fail
description. -/
def recordCheck (b : Bool) (pmsg fmsg : String) (acc : List String × List String) :
    List String × List String :=
  if b then (acc.1 ++ [pmsg], acc.2) else (acc.1, acc.2 ++ [fmsg])

/-- Run one fallible check, threading the accumulated descriptions;
an exception carries the descriptions accumulated so far. -/
def applyCheck (c : Except String Bool) (pmsg fmsg : String)
    (acc : List String × List String) :
    Except (String × List String × List String) (List String × List String) :=
  match c with
  | .ok b => .ok (recordCheck b pmsg fmsg acc)
  | .error e => .error (e, acc.1, acc.2)

/-- Checks 2 through 6 of STARKVerifier.verify in order, starting from
the description list produced by the structural check. -/
def verifyChecks (H : String → String) (VL : Nat) (proof : PDict) :
    Except (String × List String × List String) (List String × List String) := do
  let acc ← applyCheck (verify_trace_commitment proof)
    "Trace commitment verified" "Trace commitment verification failed"
    (["Proof structure is valid"], [])
  let acc ← applyCheck (verify_constraints VL proof)
    "Constraint evaluations verified" "Constraint evaluation verification failed" acc
  let acc ← applyCheck (verify_fri_layers proof)
    "FRI proof layers verified" "FRI proof layer verification failed" acc
  let acc ← applyCheck (verify_challenge H proof)
    "Challenge generation verified" "Challenge verification failed" acc
  match verify_security_level VL proof with
  | .ok (b, disp) =>
      pure (recordCheck b ("Security level adequate (" ++ disp ++ " bits)")
        ("Insufficient security level (" ++ disp ++ " bits)") acc)
  | .error e => throw (e, acc.1, acc.2)

/-- STARKVerifier.verify: the gating structural check, then checks 2-6
with exception capture, then the aggregate result. -/
def verify (H : String → String) (VL : Nat) (proof : PDict) : VerificationResult :=
  if check_proof_structure proof then
    match verifyChecks H VL proof with
    | .ok (cp, cf) =>
        let is_valid := cf.isEmpty
        ⟨is_valid, if is_valid then "Proof is VALID" else "Proof is INVALID", cp, cf⟩
    | .error (e, cp, cf) =>
        ⟨false, "Verification error: " ++ e, cp, ("Exception: " ++ e) :: cf⟩
  else
    ⟨false, "Proof structure validation failed", [], ["Invalid proof structure"]⟩

/-! ### Auxiliary definitions used by the theorems -/

/-- Whether a Python value is a list. -/
def isListVal : PVal → Bool
  | .list _ => true
  | _ => false

/-- The tampering operation of the spec and of demo 3 in main.py:
replace the value stored under the result key, keeping every other
binding. -/
def setResult (p : PDict) (r : Int) : PDict :=
  p.map (fun kv => if kv.1 == "result" then (kv.1, PVal.int r) else kv)

/-- The premise of the structural-rejection claim: some required field
absent, or constraint_evaluations or fri_layers present but not a
list. -/
def structuralDefect (d : PDict) : Prop :=
  (∃ f ∈ required_fields, pget d f = none) ∨
  (∃ v, pget d "constraint_evaluations" = some v ∧ isListVal v = false) ∨
  (∃ v, pget d "fri_layers" = some v ∧ isListVal v = false)

/-- Pass descriptions selected from outcome triples (outcome bit, pass
text, fail text). -/
def passMsgs (bs : List (Bool × String × String)) : List String :=
  bs.filterMap (fun x => if x.1 then some x.2.1 else none)

/-- Fail descriptions selected from outcome triples. -/
def failMsgs (bs : List (Bool × String × String)) : List String :=
  bs.filterMap (fun x => if x.1 then none else some x.2.2)

/-- The outcome triples of checks 2-6, given each of their boolean
outcome and the displayed security-bits string of check 6. -/
def checkTriples (b2 b3 b4 b5 b6 : Bool) (disp : String) :
    List (Bool × String × String) :=
  [(b2, "Trace commitment verified", "Trace commitment verification failed"),
   (b3, "Constraint evaluations verified", "Constraint evaluation verification failed"),
   (b4, "FRI proof layers verified", "FRI proof layer verification failed"),
   (b5, "Challenge generation verified", "Challenge verification failed"),
   (b6, "Security level adequate (" ++ disp ++ " bits)",
        "Insufficient security level (" ++ disp ++ " bits)")]

/-- A stand-in digest function used by concrete witnesses: it always
returns the 64-character string of letter a, so it has the 64-hex
shape on every input. -/
def hashStub : String → String :=
  fun _ => String.mk (List.replicate 64 'a')

/-- The step sequence asserted by the spec for compute(5), with Fresh
rendered as fib_compute and Hit as memo_lookup and index equal to
position. -/
def claimedTraceFive : List Step :=
  [⟨0, "fib_compute", 1, 1, 4⟩, ⟨1, "fib_compute", 0, 0, 5⟩,
   ⟨2, "fib_compute", 2, 1, 3⟩, ⟨3, "memo_lookup", 1, 1, 4⟩,
   ⟨4, "fib_compute", 3, 2, 2⟩, ⟨5, "memo_lookup", 2, 1, 3⟩,
   ⟨6, "fib_compute", 4, 3, 1⟩, ⟨7, "memo_lookup", 3, 2, 2⟩,
   ⟨8, "fib_compute", 5, 5, 0⟩]

/-- The step sequence the code actually produces for compute(5). -/
def actualTraceFive : List Step :=
  [⟨0, "fib_compute", 1, 1, 4⟩, ⟨1, "fib_compute", 0, 0, 4⟩,
   ⟨2, "fib_compute", 2, 1, 3⟩, ⟨3, "memo_lookup", 1, 1, 3⟩,
   ⟨4, "fib_compute", 3, 2, 2⟩, ⟨5, "memo_lookup", 2, 1, 2⟩,
   ⟨6, "fib_compute", 4, 3, 1⟩, ⟨7, "memo_lookup", 3, 2, 1⟩,
   ⟨8, "fib_compute", 5, 5, 0⟩]

/-! ### Theorems -/

/-- C5: for every digest function, evaluation list (of any length,
including 0 and 1) and challenge, the layered folding committer
returns exactly 3 layer digests; being a total Lean function, it can
raise no exception. -/
theorem fri_commit_three_layers (H : String → String) (evals : List Int)
    (challenge : String) : (fri_commit H evals challenge).length = 3 := rfl

/-- C4: the three layer digests are the hashes of the serialized
first-five prefix of the 0th, 1st and 2nd stride-2 foldings of the
whole evaluation list, each concatenated with the challenge; the
serialization depends only on the first five entries, and folding a
one-element list is a no-op. -/
theorem fri_commit_layer_structure (H : String → String) (evals : List Int)
    (challenge : String) :
    fri_commit H evals challenge =
      [H (fri_layer_str evals ++ challenge),
       H (fri_layer_str (everySecond evals) ++ challenge),
       H (fri_layer_str (everySecond (everySecond evals)) ++ challenge)] ∧
    (∀ l : List Int, fri_layer_str l = fri_layer_str (l.take 5)) ∧
    (∀ a : Int, fri_fold [a] = [a]) := by
  refine ⟨?_, ?_, fun a => rfl⟩
  · have hfold : ∀ l : List Int, fri_fold l = everySecond l := by
      intro l
      match l with
      | [] => rfl
      | [a] => rfl
      | a :: b :: rest =>
          have h : (a :: b :: rest).length > 1 := by simp
          simp [fri_fold, h]
    simp [fri_commit, fri_commit_loop, hfold]
  · intro l
    simp [fri_layer_str, List.take_take]

/-- C9: compute_fibonacci rejects every negative input with the
ValueError message, before building any trace, and on every
non-negative input returns a result together with a ProofTrace. -/
theorem fib_input_validation (n : Int) :
    (n < 0 → compute_fibonacci n = .error "n must be non-negative") ∧
    (0 ≤ n → ∃ p, compute_fibonacci n = .ok p) := by
  constructor
  · intro h
    simp [compute_fibonacci, h]
  · intro h
    refine ⟨((fibWithTrace n.toNat 0 ⟨[], []⟩).1,
      ⟨(fibWithTrace n.toNat 0 ⟨[], []⟩).2.traceSteps, n,
       (fibWithTrace n.toNat 0 ⟨[], []⟩).1⟩), ?_⟩
    rw [compute_fibonacci, if_neg (by omega)]

/-- Witness for C9 at the concrete inputs -1 and 3. -/
theorem fib_input_validation_witness :
    compute_fibonacci (-1) = .error "n must be non-negative" ∧
    ∃ p, compute_fibonacci 3 = .ok p :=
  ⟨(fib_input_validation (-1)).1 (by decide), (fib_input_validation 3).2 (by decide)⟩

/-- C3 counterexample: the step sequence the spec asserts for
compute(5) is not the one the code produces (the spec misstates the
depth of four of the nine entries). -/
theorem fib_five_spec_trace_refuted :
    (compute_fibonacci 5).toOption.map (fun p => p.2.steps) ≠ some claimedTraceFive := by
  decide

/-- C3 amended: compute(5) returns result 5 and exactly the nine-step
sequence actualTraceFive, whose depths at positions 1, 3, 5, 7 are
4, 3, 2, 1 (the spec wrote 5, 4, 3, 2). -/
theorem fib_five_trace :
    compute_fibonacci 5 = .ok (5, ⟨actualTraceFive, 5, 5⟩) := rfl

/-- C8: the constraint evaluation list has the same length as the
trace, its k-th entry is the k-th step output mod 2 to the security
level, and the assembled proof stores exactly the first ten entries. -/
theorem constraint_evaluation_spec (L : Nat) (trace : ProofTrace) :
    (evaluate_constraints L trace).length = trace.steps.length ∧
    (∀ k : Nat, (evaluate_constraints L trace)[k]? =
      trace.steps[k]?.map (fun s => s.out % ((2 ^ L : Nat) : Int))) ∧
    (∀ (H : String → String) (ts : PVal) (r : Int),
      pget (generate_proof H L ts r trace) "constraint_evaluations" =
        some (.list (((evaluate_constraints L trace).take 10).map .int))) := by
  refine ⟨?_, ?_, fun H ts r => rfl⟩
  · simp [evaluate_constraints]
  · intro k
    simp [evaluate_constraints]

/-- C10: check 3 bounds the evaluations by 2 to the power of the own
configured verifier level VL; the security_bits binding sb of the record is arbitrary
and some evaluation may be at least 2 to the sb, yet the check still
passes whenever all evaluations are non-negative and below 2 to the
VL. -/
theorem range_check_uses_verifier_level (VL sb : Nat) (d : PDict) (l : List Int)
    (hce : pget d "constraint_evaluations" = some (.list (l.map .int)))
    (hsb : pget d "security_bits" = some (.int sb))
    (hrange : ∀ v ∈ l, 0 ≤ v ∧ v < ((2 ^ VL : Nat) : Int))
    (hbig : ∃ v ∈ l, ((2 ^ sb : Nat) : Int) ≤ v) :
    verify_constraints VL d = .ok true := by
  obtain ⟨w, hw, -⟩ := hbig
  have hne : l ≠ [] := by rintro rfl; exact absurd hw (List.not_mem_nil w)
  rw [verify_constraints, pgetD, hce]
  simp only [Option.getD_some]
  rw [if_neg (by simpa [List.isEmpty_eq_true] using hne)]
  have h1 : (l.map PVal.int).all isNonnegInt = true := by
    rw [List.all_eq_true]
    intro v hv
    rw [List.mem_map] at hv
    obtain ⟨x, hx, rfl⟩ := hv
    simpa [isNonnegInt] using (hrange x hx).1
  have h2 : (l.map PVal.int).all (intBelow (2 ^ VL)) = true := by
    rw [List.all_eq_true]
    intro v hv
    rw [List.mem_map] at hv
    obtain ⟨x, hx, rfl⟩ := hv
    simpa [intBelow] using (hrange x hx).2
  rw [h1, h2]
  rfl

/-- The concrete record used by the C10 witness: its security_bits
field is 8 and its single evaluation 300 exceeds 2 to the 8. -/
def lowBitsDict : PDict :=
  [("constraint_evaluations", .list [.int 300]), ("security_bits", .int 8)]

/-- Witness for C10: against a verifier configured at level 128,
check 3 accepts the evaluation 300 of lowBitsDict although 300 is at
least 2 to the power of the security_bits value 8 stored in the record. -/
theorem range_check_uses_verifier_level_witness :
    verify_constraints 128 lowBitsDict = .ok true ∧ ((2 ^ 8 : Nat) : Int) ≤ 300 :=
  ⟨range_check_uses_verifier_level 128 8 lowBitsDict [300] rfl rfl
    (by intro v hv; simp at hv; omega)
    ⟨300, by simp, by norm_num⟩, by norm_num⟩

/-- A structurally defective record makes the gating check fail. -/
theorem check_false_of_defect (d : PDict) (h : structuralDefect d) :
    check_proof_structure d = false := by
  by_contra hc
  have ht : check_proof_structure d = true := by
    cases hcp : check_proof_structure d
    · exact absurd hcp hc
    · rfl
  rw [check_proof_structure] at ht
  simp only [Bool.and_eq_true, List.all_eq_true] at ht
  obtain ⟨⟨hall, hce⟩, hfl⟩ := ht
  rcases h with ⟨f, hf, hnone⟩ | ⟨v, hv, hnl⟩ | ⟨v, hv, hnl⟩
  · have := hall f hf
    rw [pmem, hnone] at this
    simp at this
  · rw [hv] at hce
    cases v
    · simp [isListOpt] at hce
    · simp [isListOpt] at hce
    · simp [isListVal] at hnl
  · rw [hv] at hfl
    cases v
    · simp [isListOpt] at hfl
    · simp [isListOpt] at hfl
    · simp [isListVal] at hnl

/-- C6: whenever a required field is missing or one of the two
sequence fields is not a sequence, verify aborts at the gating check:
valid is false, the message is the structural one, the sole failure
entry is the structural one, and no entry of checks 2-6 is recorded. -/
theorem structural_failure_aborts (H : String → String) (VL : Nat) (d : PDict)
    (h : structuralDefect d) :
    verify H VL d =
      ⟨false, "Proof structure validation failed", [], ["Invalid proof structure"]⟩ := by
  rw [verify, check_false_of_defect d h]
  simp

/-- The structural-rejection example of the spec: a record with every
required field except fri_layers. -/
def missingFriDict : PDict :=
  [("version", .str "1.0"), ("computation", .str "fibonacci"), ("result", .int 5),
   ("trace_commitment", .str ""), ("constraint_evaluations", .list []),
   ("challenge", .str ""), ("timestamp", .int 0), ("security_bits", .int 128)]

/-- Witness for C6: a proof record missing fri_layers is rejected at
the structural check with no other check recorded. -/
theorem structural_failure_aborts_witness :
    verify hashStub 128 missingFriDict =
      ⟨false, "Proof structure validation failed", [], ["Invalid proof structure"]⟩ :=
  structural_failure_aborts hashStub 128 missingFriDict
    (Or.inl ⟨"fri_layers", by decide, rfl⟩)

/-- Unfolding of verify on a structurally valid record whose five
checks all return without exception: the result is assembled from the
five boolean outcomes. -/
theorem verify_eq_of_checks (H : String → String) (VL : Nat) (d : PDict)
    (b2 b3 b4 b5 b6 : Bool) (disp : String)
    (hs : check_proof_structure d = true)
    (h2 : verify_trace_commitment d = .ok b2)
    (h3 : verify_constraints VL d = .ok b3)
    (h4 : verify_fri_layers d = .ok b4)
    (h5 : verify_challenge H d = .ok b5)
    (h6 : verify_security_level VL d = .ok (b6, disp)) :
    verify H VL d =
      ⟨(failMsgs (checkTriples b2 b3 b4 b5 b6 disp)).isEmpty,
       if (failMsgs (checkTriples b2 b3 b4 b5 b6 disp)).isEmpty then "Proof is VALID"
         else "Proof is INVALID",
       "Proof structure is valid" :: passMsgs (checkTriples b2 b3 b4 b5 b6 disp),
       failMsgs (checkTriples b2 b3 b4 b5 b6 disp)⟩ := by
  simp only [verify, hs, if_true]
  simp only [verifyChecks, h2, h3, h4, h5, h6]
  cases b2 <;> cases b3 <;> cases b4 <;> cases b5 <;> cases b6 <;>
    simp [applyCheck, recordCheck, passMsgs, failMsgs, checkTriples, bind, Except.bind,
      pure, Except.pure]

/-- C7: on every record that passes the structural check and whose
checks 2-6 raise no exception, all five checks run, each contributes
exactly one description (6 entries in total with the structural one),
valid holds exactly when no check failed, and the message is the
VALID or INVALID one accordingly. -/
theorem checks_two_to_six_all_execute (H : String → String) (VL : Nat) (d : PDict)
    (b2 b3 b4 b5 b6 : Bool) (disp : String)
    (hs : check_proof_structure d = true)
    (h2 : verify_trace_commitment d = .ok b2)
    (h3 : verify_constraints VL d = .ok b3)
    (h4 : verify_fri_layers d = .ok b4)
    (h5 : verify_challenge H d = .ok b5)
    (h6 : verify_security_level VL d = .ok (b6, disp)) :
    verify H VL d =
      ⟨(failMsgs (checkTriples b2 b3 b4 b5 b6 disp)).isEmpty,
       if (failMsgs (checkTriples b2 b3 b4 b5 b6 disp)).isEmpty then "Proof is VALID"
         else "Proof is INVALID",
       "Proof structure is valid" :: passMsgs (checkTriples b2 b3 b4 b5 b6 disp),
       failMsgs (checkTriples b2 b3 b4 b5 b6 disp)⟩ ∧
    (verify H VL d).checks_passed.length + (verify H VL d).checks_failed.length = 6 ∧
    ((verify H VL d).valid = true ↔ (verify H VL d).checks_failed = []) ∧
    (verify H VL d).message =
      (if (verify H VL d).valid then "Proof is VALID" else "Proof is INVALID") := by
  have h := verify_eq_of_checks H VL d b2 b3 b4 b5 b6 disp hs h2 h3 h4 h5 h6
  refine ⟨h, ?_, ?_, ?_⟩
  · rw [h]
    cases b2 <;> cases b3 <;> cases b4 <;> cases b5 <;> cases b6 <;>
      simp [passMsgs, failMsgs, checkTriples]
  · rw [h]
    simp [List.isEmpty_eq_true]
  · rw [h]

/-- The sample record used by the C7 witness: well-shaped fields, with
the challenge equal to the first 16 characters of the hashStub
digest. -/
def sampleDict : PDict :=
  [("version", .str "1.0"), ("computation", .str "fibonacci"), ("result", .int 55),
   ("trace_commitment", .str (String.mk (List.replicate 64 'a'))),
   ("constraint_evaluations", .list [.int 1, .int 2, .int 3]),
   ("challenge", .str (String.mk (List.replicate 16 'a'))),
   ("fri_layers", .list [.str (String.mk (List.replicate 64 'a'))]),
   ("timestamp", .int 0), ("security_bits", .int 128)]

set_option maxRecDepth 8192 in
/-- Witness for C7 at a concrete record on which all five checks
succeed: the six descriptions. -/
theorem checks_two_to_six_all_execute_witness :
    (verify hashStub 128 sampleDict).checks_passed.length +
      (verify hashStub 128 sampleDict).checks_failed.length = 6 :=
  (checks_two_to_six_all_execute hashStub 128 sampleDict true true true true true "128"
    rfl rfl rfl rfl rfl rfl).2.1

/-- Every call of fib_with_trace strictly lengthens the trace: each
branch appends at least the entry for the call itself. -/
theorem fib_trace_grows (num : Nat) :
    ∀ (depth : Nat) (st : FibState),
      st.traceSteps.length < (fibWithTrace num depth st).2.traceSteps.length := by
  induction num using Nat.strong_induction_on with
  | _ num ih =>
    intro depth st
    rcases num with - | m
    · rw [fibWithTrace]
      cases hm : memoLookup st.memo 0 with
      | some v => simp [memoHitStep]
      | none => simp [freshStep]
    · rcases m with - | k
      · rw [fibWithTrace]
        cases hm : memoLookup st.memo 1 with
        | some v => simp [memoHitStep]
        | none => simp [freshStep]
      · rw [fibWithTrace]
        cases hm : memoLookup st.memo (k + 2) with
        | some v => simp [memoHitStep]
        | none =>
          have h1 := ih (k + 1) (by omega) (depth + 1) st
          have h2 := ih k (by omega) (depth + 1) (fibWithTrace (k + 1) (depth + 1) st).2
          simp only [freshStep, List.length_append, List.length_cons, List.length_nil]
          omega

/-- A trace returned by compute_fibonacci has at least one step. -/
theorem honest_trace_ne_nil (n res : Int) (trace : ProofTrace)
    (h : compute_fibonacci n = .ok (res, trace)) : trace.steps ≠ [] := by
  rw [compute_fibonacci] at h
  split at h
  · simp at h
  · simp only [Except.ok.injEq, Prod.mk.injEq] at h
    obtain ⟨-, h2⟩ := h
    subst h2
    intro hnil
    have hnil2 : (fibWithTrace n.toNat 0 ⟨[], []⟩).2.traceSteps = [] := hnil
    have hg := fib_trace_grows n.toNat 0 ⟨[], []⟩
    rw [hnil2] at hg
    simp at hg

/-- The witness digest stand-in has the 64-hex shape on every input. -/
theorem hashStub_hex (s : String) : isHex64 (hashStub s) = true := by
  show isHex64 (String.mk (List.replicate 64 'a')) = true
  decide

/-- Check 5 accepts every honestly generated proof: the verifier
recomputes the digest of the same concatenation the prover hashed. -/
theorem honest_challenge_ok (H : String → String) (L : Nat) (ts : PVal)
    (r : Int) (trace : ProofTrace) :
    verify_challenge H (generate_proof H L ts r trace) = .ok true := by
  show Except.ok
      (generate_challenge H L (commit_to_trace H trace) ==
        generate_challenge H L (commit_to_trace H trace)) = Except.ok true
  rw [beq_self_eq_true]

/-- Every honestly generated proof is fully valid when the digest
function has the 64-hex shape, the trace is non-empty, and the
verifier level equals the prover level. -/
theorem honest_proof_valid (H : String → String) (L : Nat) (ts : PVal)
    (r : Int) (trace : ProofTrace)
    (hHex : ∀ s, isHex64 (H s) = true) (hne : trace.steps ≠ []) :
    verify H L (generate_proof H L ts r trace) =
      ⟨true, "Proof is VALID",
       ["Proof structure is valid", "Trace commitment verified",
        "Constraint evaluations verified", "FRI proof layers verified",
        "Challenge generation verified",
        "Security level adequate (" ++ toString L ++ " bits)"], []⟩ := by
  have h2 : verify_trace_commitment (generate_proof H L ts r trace) = .ok true := by
    have e2 : verify_trace_commitment (generate_proof H L ts r trace) =
        .ok (isHex64 (H (serializeTrace trace))) := rfl
    rw [e2, hHex]
  have h3 : verify_constraints L (generate_proof H L ts r trace) = .ok true := by
    have e3 : verify_constraints L (generate_proof H L ts r trace) =
        (if (((evaluate_constraints L trace).take 10).map PVal.int).isEmpty then
          Except.ok false
         else
          .ok ((((evaluate_constraints L trace).take 10).map PVal.int).all isNonnegInt &&
            (((evaluate_constraints L trace).take 10).map PVal.int).all
              (intBelow (2 ^ L)))) := rfl
    have hene : evaluate_constraints L trace ≠ [] := by
      rw [evaluate_constraints]
      intro hmap
      exact hne (List.map_eq_nil_iff.mp hmap)
    have hmapne : ((evaluate_constraints L trace).take 10).map PVal.int ≠ [] := by
      intro hm
      have htk := List.map_eq_nil_iff.mp hm
      cases he : evaluate_constraints L trace with
      | nil => exact hene he
      | cons a t => rw [he] at htk; simp at htk
    rw [e3, if_neg (by simpa [List.isEmpty_eq_true] using hmapne)]
    have ha1 : (((evaluate_constraints L trace).take 10).map PVal.int).all
        isNonnegInt = true := by
      rw [List.all_eq_true]
      intro v hv
      rw [List.mem_map] at hv
      obtain ⟨x, hx, rfl⟩ := hv
      have hx2 : x ∈ evaluate_constraints L trace := List.take_subset 10 _ hx
      rw [evaluate_constraints, List.mem_map] at hx2
      obtain ⟨s, -, rfl⟩ := hx2
      simp only [isNonnegInt, decide_eq_true_eq]
      exact Int.emod_nonneg _ (by positivity)
    have ha2 : (((evaluate_constraints L trace).take 10).map PVal.int).all
        (intBelow (2 ^ L)) = true := by
      rw [List.all_eq_true]
      intro v hv
      rw [List.mem_map] at hv
      obtain ⟨x, hx, rfl⟩ := hv
      have hx2 : x ∈ evaluate_constraints L trace := List.take_subset 10 _ hx
      rw [evaluate_constraints, List.mem_map] at hx2
      obtain ⟨s, -, rfl⟩ := hx2
      simp only [intBelow, decide_eq_true_eq]
      exact Int.emod_lt_of_pos _ (by positivity)
    rw [ha1, ha2]
    rfl
  have h4 : verify_fri_layers (generate_proof H L ts r trace) = .ok true := by
    have e4 : verify_fri_layers (generate_proof H L ts r trace) =
        .ok (((fri_commit H (evaluate_constraints L trace)
          (generate_challenge H L (commit_to_trace H trace))).map PVal.str).all
            isHexLayer) := rfl
    rw [e4]
    simp [fri_commit, fri_commit_loop, isHexLayer, hHex]
  have h6 : verify_security_level L (generate_proof H L ts r trace) =
      .ok (true, toString L) := by
    have e6 : verify_security_level L (generate_proof H L ts r trace) =
        .ok (decide ((L : Int) ≤ ((L : Nat) : Int)), toString ((L : Nat) : Int)) := rfl
    have hd : decide ((L : Int) ≤ ((L : Nat) : Int)) = true := by simp
    rw [e6, hd]
    rfl
  have h := verify_eq_of_checks H L (generate_proof H L ts r trace)
    true true true true true (toString L) rfl h2 h3 h4
    (honest_challenge_ok H L ts r trace) h6
  rw [h]
  rfl

/-! The claims about challenge round-trip and result-field
irrelevance. -/

/-- C2: the stored challenge of every honestly generated proof is the
16-character truncation of the digest of the commitment concatenated
with the decimal security bits, and check 5 therefore passes;
no assumption relating verifier and prover levels is even needed,
since check 5 reads only proof fields. -/
theorem honest_challenge_roundtrip (H : String → String) (L : Nat) (ts : PVal)
    (r : Int) (trace : ProofTrace) :
    pget (generate_proof H L ts r trace) "challenge" =
      some (.str ((H (commit_to_trace H trace ++ toString L)).take 16)) ∧
    verify_challenge H (generate_proof H L ts r trace) = .ok true :=
  ⟨rfl, honest_challenge_ok H L ts r trace⟩

/-- C1: replacing the result field of an honestly assembled proof
leaves trace_commitment, challenge and fri_layers unchanged, the
verifier returns the identical outcome at every security level, and
(for a digest function of 64-hex shape, at the prover level) that
outcome is valid. -/
theorem result_field_ignored (H : String → String) (L : Nat) (ts : PVal)
    (n res r' : Int) (trace : ProofTrace)
    (hcomp : compute_fibonacci n = .ok (res, trace))
    (hHex : ∀ s, isHex64 (H s) = true) :
    pget (setResult (generate_proof H L ts res trace) r') "trace_commitment" =
      pget (generate_proof H L ts res trace) "trace_commitment" ∧
    pget (setResult (generate_proof H L ts res trace) r') "challenge" =
      pget (generate_proof H L ts res trace) "challenge" ∧
    pget (setResult (generate_proof H L ts res trace) r') "fri_layers" =
      pget (generate_proof H L ts res trace) "fri_layers" ∧
    (∀ VL : Nat, verify H VL (setResult (generate_proof H L ts res trace) r') =
      verify H VL (generate_proof H L ts res trace)) ∧
    (verify H L (setResult (generate_proof H L ts res trace) r')).valid = true := by
  have hset : setResult (generate_proof H L ts res trace) r' =
      generate_proof H L ts r' trace := rfl
  have hne := honest_trace_ne_nil n res trace hcomp
  refine ⟨rfl, rfl, rfl, fun VL => rfl, ?_⟩
  rw [hset, honest_proof_valid H L ts r' trace hHex hne]

/-- The trace compute_fibonacci returns for n = 2, used by the C1
witness. -/
def traceTwo : ProofTrace :=
  ⟨[⟨0, "fib_compute", 1, 1, 1⟩, ⟨1, "fib_compute", 0, 0, 1⟩,
    ⟨2, "fib_compute", 2, 1, 0⟩], 2, 1⟩

set_option maxRecDepth 8192 in
/-- Witness for C1: the honest proof for fibonacci(2) with its result
field overwritten by 999 still verifies as valid. -/
theorem result_field_ignored_witness :
    (verify hashStub 128 (setResult (generate_proof hashStub 128 (.int 0) 1 traceTwo)
      999)).valid = true :=
  (result_field_ignored hashStub 128 (.int 0) 2 1 999 traceTwo rfl hashStub_hex).2.2.2.2

end Stark
